import Mathlib

set_option maxRecDepth 20000

/-!
Formal model of the `zwaveme_assist` helper (`zwaveme_assist/helper.py`).

Python strings are modelled as `List Char` (`PyStr`); Python dicts as
association lists with Python insertion semantics (updating an existing key
keeps its position, a new key is appended); network traffic is modelled by
returning the list of URLs requested alongside each result, and exceptions
by `Except`.
-/

abbrev PyStr := List Char

/-- Python `str.lower()`, applied character by character. -/
def pyLower (s : PyStr) : PyStr := s.map Char.toLower

/-- Source `ZwaveMeHelper.ZAutomationDevice`: a raw switch object `{deviceId, deviceName}`
bound as the device's attributes. -/
structure ZAutomationDevice where
  deviceId : PyStr
  deviceName : PyStr
deriving DecidableEq

/-- Source `ZAutomationDevice.name` property: returns `deviceName`. -/
def ZAutomationDevice.name (d : ZAutomationDevice) : PyStr := d.deviceName

/-- Source `ZAutomationDevice.api_id` property: returns `deviceId`. -/
def ZAutomationDevice.api_id (d : ZAutomationDevice) : PyStr := d.deviceId

/-- One entry of a location's `namespaces` JSON array: a group with an `id`
and (for switch groups) a `params` array of device objects.  This is what
`ZwaveMeHelper.ZAutomationDeviceList` wraps. -/
structure NamespaceEntry where
  id : PyStr
  params : List ZAutomationDevice
deriving DecidableEq

/-- The raw JSON data of one element of the `data` field of a
`/locations` response: `{title, namespaces}`. -/
structure LocationData where
  title : PyStr
  namespaces : List NamespaceEntry
deriving DecidableEq

/-- Source `ZwaveMeHelper.ZAutomationLocation`: binds the raw location data and adds
the `_switches` memo field (initially `None`). -/
structure ZAutomationLocation where
  title : PyStr
  namespaces : List NamespaceEntry
  _switches : Option (List ZAutomationDevice)
deriving DecidableEq

/-- The `ZAutomationLocation` constructor: `self.__dict__ = data; self._switches = None`. -/
def ZAutomationLocation.ofData (d : LocationData) : ZAutomationLocation :=
  { title := d.title, namespaces := d.namespaces, _switches := none }

/-- Source `ZAutomationLocation.name` property: returns `title`. -/
def ZAutomationLocation.name (l : ZAutomationLocation) : PyStr := l.title

/-- Source `ZAutomationLocation._SWITCHES`: the fixed switch-group tag. -/
def ZAutomationLocation._SWITCHES : PyStr := "devices_switchBinary".toList

/-- The body of the first-access branch of the `switches` property: filter the
`namespaces` entries whose `id` equals `_SWITCHES` and flatten each matching
group's `params` array into devices. -/
def ZAutomationLocation.computeSwitches (l : ZAutomationLocation) : List ZAutomationDevice :=
  (l.namespaces.filter (fun n => n.id = ZAutomationLocation._SWITCHES)).flatMap
    (fun g => g.params)

/-- Source `ZAutomationLocation.switches` property: on first access (memo `None`)
compute and store the device list; afterwards return the stored list.  The
returned pair is (value, object state after the access). -/
def ZAutomationLocation.switches (l : ZAutomationLocation) :
    List ZAutomationDevice × ZAutomationLocation :=
  match l._switches with
  | some s => (s, l)
  | none =>
    let s := l.computeSwitches
    (s, { l with _switches := some s })

/-- The credentials object loaded from the credential file. -/
structure Credentials where
  username : PyStr
  password : PyStr
  server_url : PyStr
deriving DecidableEq

/-- Source `requests` raises `HTTPError` from `raise_for_status` exactly for
4xx/5xx status codes; we call that condition a transport error. -/
inductive TransportError where
  | httpError (status : Nat)
deriving DecidableEq

/-- Source `Response.raise_for_status()`: raises for `400 ≤ status < 600`. -/
def raise_for_status (status : Nat) : Except TransportError Unit :=
  if 400 ≤ status ∧ status < 600 then .error (.httpError status) else .ok ()

/-- An HTTP response to the locations request, with its parsed JSON `data`
field. -/
structure HttpResponse where
  status : Nat
  data : List LocationData
deriving DecidableEq

/-- Source `AbstractAPIStrategy.BASE_URL`. -/
def AbstractAPIStrategy.BASE_URL : PyStr := "/ZAutomation/api/v1".toList

/-- Source `APIListLocationStrategy.URL`. -/
def APIListLocationStrategy.URL : PyStr := "/locations".toList

/-- Source `server_full_url` for the list-locations strategy: `server_url + BASE_URL + URL`. -/
def APIListLocationStrategy.server_full_url (c : Credentials) : PyStr :=
  c.server_url ++ AbstractAPIStrategy.BASE_URL ++ APIListLocationStrategy.URL

/-- Source `APIListLocationStrategy.apply`: one GET to the full URL, then
`raise_for_status`, then one `ZAutomationLocation` per element of the
response's `data` field, in order.  The second component is the list of
URLs requested (the network trace). -/
def APIListLocationStrategy.apply (c : Credentials) (resp : HttpResponse) :
    Except TransportError (List ZAutomationLocation) × List PyStr :=
  match raise_for_status resp.status with
  | .error e => (.error e, [APIListLocationStrategy.server_full_url c])
  | .ok _ =>
    (.ok (resp.data.map ZAutomationLocation.ofData),
      [APIListLocationStrategy.server_full_url c])

/-- Source `APIDeviceActionStrategy.TURN_ON`. -/
def APIDeviceActionStrategy.TURN_ON : PyStr := "on".toList

/-- Source `APIDeviceActionStrategy.TURN_OFF`. -/
def APIDeviceActionStrategy.TURN_OFF : PyStr := "off".toList

/-- The first element of the `param` list given to the device-action
strategy: either a genuine `ZAutomationDevice` or some other Python value
(represented by its class name, which is what the error log prints). -/
inductive PyParam0 where
  | device (d : ZAutomationDevice)
  | other (className : PyStr)
deriving DecidableEq

/-- The command URL produced by `self.server_full_url.format(api_id, action)`
for the device-action strategy, whose URL template is
`server_url + BASE_URL + "/devices/" + api_id + "/command/" + action`. -/
def APIDeviceActionStrategy.commandUrl (c : Credentials) (apiId action : PyStr) : PyStr :=
  c.server_url ++ AbstractAPIStrategy.BASE_URL ++ "/devices/".toList ++ apiId
    ++ "/command/".toList ++ action

/-- Source `APIDeviceActionStrategy.apply`: if `param` is `None` or its first element
is not a `ZAutomationDevice`, only log and fall through (no call, `None`
returned); otherwise GET the formatted command URL and `raise_for_status`.
`respStatus` is the status the server would answer with; the second
component is the network trace. -/
def APIDeviceActionStrategy.apply (c : Credentials) (param : Option (PyParam0 × PyStr))
    (respStatus : Nat) : Except TransportError Unit × List PyStr :=
  match param with
  | some (p0, action) =>
    match p0 with
    | .device d =>
      match raise_for_status respStatus with
      | .error e => (.error e, [APIDeviceActionStrategy.commandUrl c d.api_id action])
      | .ok _ => (.ok (), [APIDeviceActionStrategy.commandUrl c d.api_id action])
    | .other _ => (.ok (), [])
  | none => (.ok (), [])

/-- Python dict assignment `t[k] = v`: update in place when the key exists
(keeping its position), append otherwise. -/
def dictInsert {α : Type} (t : List (PyStr × α)) (k : PyStr) (v : α) :
    List (PyStr × α) :=
  if (t.find? (fun p => p.1 = k)).isSome then
    t.map (fun p => if p.1 = k then (p.1, v) else p)
  else t ++ [(k, v)]

/-- Python dict lookup `t[k]` (as an `Option`). -/
def dictLookup {α : Type} (t : List (PyStr × α)) (k : PyStr) : Option α :=
  (t.find? (fun p => p.1 = k)).map (·.2)

/-- Python `t.keys()` in insertion order. -/
def dictKeys {α : Type} (t : List (PyStr × α)) : List PyStr := t.map (·.1)

/-- The helper object: its credentials and its `_commands` field, `None`
until `__init_commands__` has run. -/
structure ZwaveMeHelper where
  credentials : Credentials
  _commands : Option (List (PyStr × (ZAutomationDevice × PyStr)))
deriving DecidableEq

/-- The command table type: phrase keys mapped to (device, action) — the
strategy component of the stored `[action_strategy, device, action]` list is
the single shared `APIDeviceActionStrategy` built from the helper's
credentials, so it is kept implicit. -/
abbrev CommandTable := List (PyStr × (ZAutomationDevice × PyStr))

/-- Source `ZwaveMeHelper.BASE_ORDER`. -/
def ZwaveMeHelper.BASE_ORDER : PyStr := "Wave".toList

/-- The `ac` list of `__init_commands__`: actions actually sent. -/
def ZwaveMeHelper.ac : List PyStr :=
  [APIDeviceActionStrategy.TURN_ON, APIDeviceActionStrategy.TURN_OFF,
    APIDeviceActionStrategy.TURN_OFF]

/-- The `ac_voc` list of `__init_commands__`: vocabulary words, the third
being `TURN_OFF[:-1]` (the final character dropped). -/
def ZwaveMeHelper.ac_voc : List PyStr :=
  [APIDeviceActionStrategy.TURN_ON, APIDeviceActionStrategy.TURN_OFF,
    APIDeviceActionStrategy.TURN_OFF.dropLast]

/-- The phrase built for one (vocabulary word, device name, room name)
triple: `"{BASE_ORDER} {voc} {name} in {room}".lower()`. -/
def ZwaveMeHelper.mkCommand (voc name room : PyStr) : PyStr :=
  pyLower (ZwaveMeHelper.BASE_ORDER ++ " ".toList ++ voc ++ " ".toList ++ name
    ++ " in ".toList ++ room)

/-- The `action_map` dict of `__init_commands__`: room name mapped to the
room's switch list (`for room in rooms: action_map[room.name] = list(room.switches)`). -/
def ZwaveMeHelper.actionMap (rooms : List ZAutomationLocation) :
    List (PyStr × List ZAutomationDevice) :=
  rooms.foldl (fun m room => dictInsert m room.name (room.switches).1) []

/-- The linearization of the triple loop of `__init_commands__`
(`for action_idx in range(len(ac)): for room in action_map.keys():
for device in action_map[room]:`), in execution order: the stream of
(phrase, (device, action)) assignments made to `self._commands`. -/
def ZwaveMeHelper.commandStream (am : List (PyStr × List ZAutomationDevice)) :
    List (PyStr × (ZAutomationDevice × PyStr)) :=
  (List.range ZwaveMeHelper.ac.length).flatMap (fun i =>
    (dictKeys am).flatMap (fun room =>
      ((dictLookup am room).getD []).map (fun device =>
        (ZwaveMeHelper.mkCommand (ZwaveMeHelper.ac_voc.getD i []) device.name room,
          (device, ZwaveMeHelper.ac.getD i [])))))

/-- All phrases generated by `__init_commands__`, with multiplicity,
before dict deduplication. -/
def ZwaveMeHelper.allPhrases (rooms : List ZAutomationLocation) : List PyStr :=
  (ZwaveMeHelper.commandStream (ZwaveMeHelper.actionMap rooms)).map (·.1)

/-- The table built by `__init_commands__` from the rooms returned by the
list-locations strategy: each assignment of the triple loop applied in order
to the initially empty dict. -/
def ZwaveMeHelper.init_commands (rooms : List ZAutomationLocation) : CommandTable :=
  (ZwaveMeHelper.commandStream (ZwaveMeHelper.actionMap rooms)).foldl
    (fun t p => dictInsert t p.1 p.2) []

/-- Running `__init_commands__` on the helper: `self._commands = {}` happens
before the network call, so on a transport error the field is left assigned
(and empty) while the exception propagates.  The `Nat` is the number of
list-locations network calls performed. -/
def ZwaveMeHelper.init_commands_run (h : ZwaveMeHelper) (resp : HttpResponse) :
    Except TransportError CommandTable × ZwaveMeHelper × Nat :=
  match APIListLocationStrategy.apply h.credentials resp with
  | (.error e, calls) => (.error e, { h with _commands := some [] }, calls.length)
  | (.ok rooms, calls) =>
    let t := ZwaveMeHelper.init_commands rooms
    (.ok t, { h with _commands := some t }, calls.length)

/-- Source `ZwaveMeHelper.get_vocal_commands`: build the table if `_commands` is
`None`, then return its keys.  Result, new helper state, number of
list-locations network calls. -/
def ZwaveMeHelper.get_vocal_commands (h : ZwaveMeHelper) (resp : HttpResponse) :
    Except TransportError (List PyStr) × ZwaveMeHelper × Nat :=
  match h._commands with
  | some t => (.ok (dictKeys t), h, 0)
  | none =>
    match ZwaveMeHelper.init_commands_run h resp with
    | (.error e, h2, n) => (.error e, h2, n)
    | (.ok t, h2, n) => (.ok (dictKeys t), h2, n)

/-- Source `ZwaveMeHelper.clean_command`: strip one layer of enclosing single
quotes when `command[:1] == "'"` and `command[-1:] == "'"`; `command[1:-1]`
is drop-first-then-drop-last. -/
def ZwaveMeHelper.clean_command (command : PyStr) : PyStr :=
  if command.take 1 = ['\''] ∧ command.drop (command.length - 1) = ['\''] then
    (command.drop 1).dropLast
  else command

/-- The possible Python exceptions escaping `do_vocal_commands`. -/
inductive PyExc where
  | typeError
  | http (e : TransportError)
deriving DecidableEq

/-- The body of `do_vocal_commands` after the lazy build: clean the order
(a `None` order makes `clean_command` slice `None`, raising `TypeError`),
look it up, and on a hit run the stored action strategy on
`[device, action]`, returning `True`; a `KeyError` (miss) is caught and
`False` returned.  Components: result, helper state, list-locations call
count carried through, action-network trace. -/
def ZwaveMeHelper.do_lookup (h : ZwaveMeHelper) (t : CommandTable) (n : Nat)
    (actionStatus : Nat) (order : Option PyStr) :
    Except PyExc Bool × ZwaveMeHelper × Nat × List PyStr :=
  match order with
  | none => (.error .typeError, h, n, [])
  | some o =>
    match dictLookup t (ZwaveMeHelper.clean_command o) with
    | none => (.ok false, h, n, [])
    | some (d, a) =>
      match APIDeviceActionStrategy.apply h.credentials (some (.device d, a)) actionStatus with
      | (.error e, calls) => (.error (.http e), h, n, calls)
      | (.ok _, calls) => (.ok true, h, n, calls)

/-- Source `ZwaveMeHelper.do_vocal_commands`: build the table if `_commands` is
`None` (propagating a transport error), then dispatch the order. -/
def ZwaveMeHelper.do_vocal_commands (h : ZwaveMeHelper) (resp : HttpResponse)
    (actionStatus : Nat) (order : Option PyStr) :
    Except PyExc Bool × ZwaveMeHelper × Nat × List PyStr :=
  match h._commands with
  | some t => ZwaveMeHelper.do_lookup h t 0 actionStatus order
  | none =>
    match ZwaveMeHelper.init_commands_run h resp with
    | (.error e, h2, n) => (.error (.http e), h2, n, [])
    | (.ok t, h2, n) => ZwaveMeHelper.do_lookup h2 t n actionStatus order

/-- One public helper operation. -/
inductive HelperOp where
  | listCmds
  | exec (order : Option PyStr)

/-- Run one operation; keep the helper state and the number of
list-locations network calls it performed. -/
def ZwaveMeHelper.runOp (h : ZwaveMeHelper) (resp : HttpResponse) (actionStatus : Nat) :
    HelperOp → ZwaveMeHelper × Nat
  | .listCmds =>
    ((ZwaveMeHelper.get_vocal_commands h resp).2.1,
      (ZwaveMeHelper.get_vocal_commands h resp).2.2)
  | .exec o =>
    ((ZwaveMeHelper.do_vocal_commands h resp actionStatus o).2.1,
      (ZwaveMeHelper.do_vocal_commands h resp actionStatus o).2.2.1)

/-- Run a sequence of operations, totalling the list-locations network calls. -/
def ZwaveMeHelper.runOps (resp : HttpResponse) (actionStatus : Nat) :
    ZwaveMeHelper → List HelperOp → ZwaveMeHelper × Nat
  | h, [] => (h, 0)
  | h, op :: ops =>
    ((ZwaveMeHelper.runOps resp actionStatus
        (ZwaveMeHelper.runOp h resp actionStatus op).1 ops).1,
      (ZwaveMeHelper.runOp h resp actionStatus op).2
        + (ZwaveMeHelper.runOps resp actionStatus
            (ZwaveMeHelper.runOp h resp actionStatus op).1 ops).2)

/-! ### Concrete scenario constants -/

/-- The switch device of the end-to-end demo scenario. -/
def demoDevice : ZAutomationDevice :=
  { deviceId := "ZWayVDev_zway_2".toList, deviceName := "The Plug Switch".toList }

/-- The demo room: one switch-group namespace holding the demo device.
Titled "The Living Room", which is what produces the phrases of the
end-to-end scenario (the phrase appends the room title verbatim after
"in"). -/
def demoLoc : LocationData :=
  { title := "The Living Room".toList,
    namespaces := [{ id := "devices_switchBinary".toList, params := [demoDevice] }] }

/-- A room titled "Living Room" (no leading "The") with the same single
device: the letter of the end-to-end claim. -/
def c2Loc : LocationData :=
  { title := "Living Room".toList,
    namespaces := [{ id := "devices_switchBinary".toList, params := [demoDevice] }] }

/-- Demo credentials. -/
def demoCreds : Credentials :=
  { username := "admin".toList, password := "secret".toList,
    server_url := "http://zwave.local:8083".toList }

/-- A successful locations response holding the demo room. -/
def demoResp : HttpResponse := { status := 200, data := [demoLoc] }

/-- A freshly constructed helper: `_commands` is `None`. -/
def demoHelper : ZwaveMeHelper := { credentials := demoCreds, _commands := none }

/-- A helper whose table has been built and is empty. -/
def demoBuiltEmpty : ZwaveMeHelper := { credentials := demoCreds, _commands := some [] }

/-- First of two distinct devices sharing one name in one room. -/
def dupDev1 : ZAutomationDevice := { deviceId := "id1".toList, deviceName := "X".toList }

/-- Second of two distinct devices sharing one name in one room. -/
def dupDev2 : ZAutomationDevice := { deviceId := "id2".toList, deviceName := "X".toList }

/-- A room holding two devices with the same name: their generated phrases
collide and the dict assignment overwrites. -/
def dupLoc : LocationData :=
  { title := "Room".toList,
    namespaces := [{ id := "devices_switchBinary".toList, params := [dupDev1, dupDev2] }] }

/-! ### Helper lemmas -/

theorem dropLast_append_singleton {α : Type} (l : List α) (a : α) :
    (l ++ [a]).dropLast = l := by
  induction l with
  | nil => rfl
  | cons x xs ih =>
    cases xs with
    | nil => rfl
    | cons y ys => simp [List.dropLast, ih]

theorem take1_eq_singleton_iff (s : PyStr) (c : Char) :
    s.take 1 = [c] ↔ s.head? = some c := by
  cases s <;> simp [List.take]

theorem drop_pred_length_eq_iff (s : PyStr) (c : Char) :
    s.drop (s.length - 1) = [c] ↔ s.getLast? = some c := by
  induction s with
  | nil => simp
  | cons a l ih =>
    cases l with
    | nil => simp [List.drop]
    | cons b m =>
      have hlen : (a :: b :: m).length - 1 = (b :: m).length - 1 + 1 := by
        simp [Nat.succ_sub_one]
      rw [hlen, List.drop_succ_cons, List.getLast?_cons_cons]
      exact ih

theorem clean_command_strips (t : PyStr) :
    ZwaveMeHelper.clean_command ('\'' :: (t ++ ['\''])) = t := by
  have hdrop : ('\'' :: (t ++ ['\''])).drop (('\'' :: (t ++ ['\''])).length - 1)
      = ['\''] := by
    have hlen : ('\'' :: (t ++ ['\''])).length - 1 = t.length + 1 := by
      simp
    rw [hlen, List.drop_succ_cons]
    simp [List.drop_left t]
  unfold ZwaveMeHelper.clean_command
  rw [if_pos ⟨rfl, hdrop⟩]
  simp [List.drop_succ_cons, dropLast_append_singleton t]

theorem clean_command_id (s : PyStr)
    (h : ¬ (s.head? = some '\'' ∧ s.getLast? = some '\'')) :
    ZwaveMeHelper.clean_command s = s := by
  unfold ZwaveMeHelper.clean_command
  rw [if_neg]
  intro hc
  exact h ⟨(take1_eq_singleton_iff s '\'').mp hc.1,
    (drop_pred_length_eq_iff s '\'').mp hc.2⟩

theorem dictLookup_cons {α : Type} (p : PyStr × α) (ts : List (PyStr × α)) (k : PyStr) :
    dictLookup (p :: ts) k = if p.1 = k then some p.2 else dictLookup ts k := by
  by_cases hp : p.1 = k
  · rw [if_pos hp]
    unfold dictLookup
    rw [List.find?_cons_of_pos _ (by simp [hp])]
    rfl
  · rw [if_neg hp]
    unfold dictLookup
    rw [List.find?_cons_of_neg _ (by simp [hp])]

theorem dictInsert_cons_ne {α : Type} (p : PyStr × α) (ts : List (PyStr × α))
    (k : PyStr) (v : α) (hp : p.1 ≠ k) :
    dictInsert (p :: ts) k v = p :: dictInsert ts k v := by
  unfold dictInsert
  rw [List.find?_cons_of_neg _ (by simp [hp])]
  by_cases hts : ((ts.find? (fun q => q.1 = k)).isSome : Prop)
  · rw [if_pos hts, if_pos hts, List.map_cons, if_neg hp]
  · rw [if_neg hts, if_neg hts]
    rfl

theorem dictLookup_map_update_ne {α : Type} (ts : List (PyStr × α)) (k k' : PyStr)
    (v : α) (hkk : k' ≠ k) :
    dictLookup (ts.map (fun q => if q.1 = k then (q.1, v) else q)) k'
      = dictLookup ts k' := by
  have hkk2 : ¬ k = k' := fun h => hkk h.symm
  induction ts with
  | nil => rfl
  | cons q qs ih =>
    rw [List.map_cons, dictLookup_cons, dictLookup_cons]
    by_cases hq : q.1 = k
    · rw [if_pos hq]
      have h1 : ¬ (((q.1, v) : PyStr × α).1 = k') := by
        show ¬ (q.1 = k')
        rw [hq]
        exact hkk2
      have h2 : ¬ (q.1 = k') := by
        rw [hq]
        exact hkk2
      rw [if_neg h1, if_neg h2]
      exact ih
    · rw [if_neg hq]
      by_cases hq' : q.1 = k'
      · rw [if_pos hq', if_pos hq']
      · rw [if_neg hq', if_neg hq']
        exact ih

theorem dictLookup_dictInsert_self {α : Type} (t : List (PyStr × α)) (k : PyStr) (v : α) :
    dictLookup (dictInsert t k v) k = some v := by
  induction t with
  | nil =>
    have h0 : dictInsert ([] : List (PyStr × α)) k v = [(k, v)] := rfl
    rw [h0, dictLookup_cons, if_pos rfl]
  | cons p ts ih =>
    by_cases hp : p.1 = k
    · unfold dictInsert
      rw [List.find?_cons_of_pos _ (by simp [hp]), if_pos (by simp)]
      rw [List.map_cons, if_pos hp, dictLookup_cons]
      simp [hp]
    · rw [dictInsert_cons_ne p ts k v hp, dictLookup_cons, if_neg hp]
      exact ih

theorem dictLookup_dictInsert_ne {α : Type} (t : List (PyStr × α)) (k k' : PyStr)
    (v : α) (hkk : k' ≠ k) :
    dictLookup (dictInsert t k v) k' = dictLookup t k' := by
  have hkk2 : ¬ k = k' := fun h => hkk h.symm
  induction t with
  | nil =>
    have h0 : dictInsert ([] : List (PyStr × α)) k v = [(k, v)] := rfl
    rw [h0, dictLookup_cons, if_neg hkk2]
  | cons p ts ih =>
    by_cases hp : p.1 = k
    · unfold dictInsert
      rw [List.find?_cons_of_pos _ (by simp [hp]), if_pos (by simp)]
      rw [List.map_cons, if_pos hp, dictLookup_cons, dictLookup_cons]
      have hne : ¬ (p.1 = k') := by
        rw [hp]
        exact hkk2
      have hne2 : ¬ (((p.1, v) : PyStr × α).1 = k') := by
        show ¬ (p.1 = k')
        exact hne
      rw [if_neg hne2, if_neg hne]
      exact dictLookup_map_update_ne ts k k' v hkk
    · rw [dictInsert_cons_ne p ts k v hp, dictLookup_cons, dictLookup_cons]
      by_cases hq : p.1 = k'
      · rw [if_pos hq, if_pos hq]
      · rw [if_neg hq, if_neg hq]
        exact ih

theorem find?_append_or {α : Type} (l₁ l₂ : List α) (p : α → Bool) :
    (l₁ ++ l₂).find? p
      = match l₁.find? p with
        | some a => some a
        | none => l₂.find? p := by
  induction l₁ with
  | nil => rfl
  | cons a as ih =>
    by_cases ha : p a = true
    · rw [List.cons_append, List.find?_cons_of_pos _ ha, List.find?_cons_of_pos _ ha]
    · rw [List.cons_append, List.find?_cons_of_neg _ (by simpa using ha),
        List.find?_cons_of_neg _ (by simpa using ha)]
      exact ih

theorem dictLookup_foldl_dictInsert {α : Type} (l : List (PyStr × α))
    (t : List (PyStr × α)) (k : PyStr) :
    dictLookup (l.foldl (fun t p => dictInsert t p.1 p.2) t) k
      = match l.reverse.find? (fun p => p.1 = k) with
        | some p => some p.2
        | none => dictLookup t k := by
  induction l generalizing t with
  | nil => rfl
  | cons p ls ih =>
    rw [List.foldl_cons, ih, List.reverse_cons, find?_append_or]
    cases hfind : ls.reverse.find? (fun q => q.1 = k) with
    | some q => rfl
    | none =>
      by_cases hp : p.1 = k
      · rw [List.find?_cons_of_pos _ (by simp [hp])]
        subst hp
        exact dictLookup_dictInsert_self t p.1 p.2
      · rw [List.find?_cons_of_neg _ (by simp [hp])]
        exact dictLookup_dictInsert_ne t p.1 k p.2 (fun h => hp h.symm)

theorem find?_key_eq_of_mem_of_nodup {α : Type} (l : List (PyStr × α)) (k : PyStr)
    (v : α) (hnd : (l.map (·.1)).Nodup) (hm : (k, v) ∈ l) :
    l.find? (fun p => p.1 = k) = some (k, v) := by
  induction l with
  | nil => cases hm
  | cons p ts ih =>
    simp only [List.map_cons] at hnd
    have hnd2 := List.nodup_cons.mp hnd
    rcases List.mem_cons.mp hm with heq | hts
    · subst heq
      exact List.find?_cons_of_pos _ (by simp)
    · have hkts : k ∈ ts.map (·.1) := List.mem_map.mpr ⟨(k, v), hts, rfl⟩
      have hp : p.1 ≠ k := by
        intro hpk
        exact hnd2.1 (hpk ▸ hkts)
      rw [List.find?_cons_of_neg _ (by simp [hp])]
      exact ih hnd2.2 hts

theorem dictInsert_append_of_not_mem {α : Type} (t : List (PyStr × α)) (k : PyStr)
    (v : α) (h : k ∉ t.map (·.1)) : dictInsert t k v = t ++ [(k, v)] := by
  have hfind : t.find? (fun p => p.1 = k) = none := by
    rw [List.find?_eq_none]
    intro x hx
    simp only [decide_eq_true_eq]
    intro hxk
    exact h (List.mem_map.mpr ⟨x, hx, hxk⟩)
  unfold dictInsert
  rw [hfind]
  rfl

theorem foldl_dictInsert_eq_append {α β : Type} (f : β → PyStr) (g : β → α) :
    ∀ (l : List β) (acc : List (PyStr × α)),
      (acc.map (·.1) ++ l.map f).Nodup →
      l.foldl (fun m b => dictInsert m (f b) (g b)) acc
        = acc ++ l.map (fun b => (f b, g b)) := by
  intro l
  induction l with
  | nil =>
    intro acc h
    simp
  | cons b bs ih =>
    intro acc h
    have hsplit := List.nodup_append.mp h
    have hnot : f b ∉ acc.map (·.1) := by
      intro hmem
      exact hsplit.2.2 hmem (by simp)
    rw [List.foldl_cons, dictInsert_append_of_not_mem acc (f b) (g b) hnot]
    have hnd2 : ((acc ++ [(f b, g b)]).map (·.1) ++ bs.map f).Nodup := by
      have : (acc ++ [(f b, g b)]).map (·.1) ++ bs.map f
          = acc.map (·.1) ++ (f b :: bs.map f) := by
        simp
      rw [this]
      simpa using h
    rw [ih (acc ++ [(f b, g b)]) hnd2]
    simp

theorem mkCommand_on (n r : PyStr) :
    ZwaveMeHelper.mkCommand (ZwaveMeHelper.ac_voc.getD 0 []) n r
      = pyLower ("wave on ".toList ++ n ++ " in ".toList ++ r) := rfl

theorem mkCommand_off (n r : PyStr) :
    ZwaveMeHelper.mkCommand (ZwaveMeHelper.ac_voc.getD 1 []) n r
      = pyLower ("wave off ".toList ++ n ++ " in ".toList ++ r) := rfl

theorem mkCommand_of (n r : PyStr) :
    ZwaveMeHelper.mkCommand (ZwaveMeHelper.ac_voc.getD 2 []) n r
      = pyLower ("wave of ".toList ++ n ++ " in ".toList ++ r) := rfl

theorem commandStream_mem (am : List (PyStr × List ZAutomationDevice)) (room : PyStr)
    (devs : List ZAutomationDevice) (hkey : room ∈ dictKeys am)
    (hlook : dictLookup am room = some devs) (device : ZAutomationDevice)
    (hdev : device ∈ devs) (i : Nat) (hi : i < 3) :
    (ZwaveMeHelper.mkCommand (ZwaveMeHelper.ac_voc.getD i []) device.name room,
      (device, ZwaveMeHelper.ac.getD i [])) ∈ ZwaveMeHelper.commandStream am := by
  unfold ZwaveMeHelper.commandStream
  refine List.mem_flatMap.mpr ⟨i, ?_, ?_⟩
  · have hlen : ZwaveMeHelper.ac.length = 3 := rfl
    rw [hlen]
    exact List.mem_range.mpr hi
  · refine List.mem_flatMap.mpr ⟨room, hkey, ?_⟩
    simp only [hlook, Option.getD_some]
    exact List.mem_map.mpr ⟨device, hdev, rfl⟩

theorem actionMap_eq (rooms : List ZAutomationLocation)
    (hnd : (rooms.map ZAutomationLocation.name).Nodup) :
    ZwaveMeHelper.actionMap rooms
      = rooms.map (fun r => (r.name, (r.switches).1)) := by
  have h := foldl_dictInsert_eq_append (f := ZAutomationLocation.name)
    (g := fun r => (r.switches).1) rooms [] (by simpa using hnd)
  simpa [ZwaveMeHelper.actionMap] using h

theorem dictLookup_init_commands (rooms : List ZAutomationLocation) (k : PyStr)
    (v : ZAutomationDevice × PyStr)
    (hnd : (ZwaveMeHelper.allPhrases rooms).Nodup)
    (hm : (k, v) ∈ ZwaveMeHelper.commandStream (ZwaveMeHelper.actionMap rooms)) :
    dictLookup (ZwaveMeHelper.init_commands rooms) k = some v := by
  unfold ZwaveMeHelper.init_commands
  rw [dictLookup_foldl_dictInsert]
  have hnd0 : ((ZwaveMeHelper.commandStream
      (ZwaveMeHelper.actionMap rooms)).map (·.1)).Nodup := hnd
  have hnd2 : ((ZwaveMeHelper.commandStream
      (ZwaveMeHelper.actionMap rooms)).reverse.map (·.1)).Nodup := by
    rw [List.map_reverse]
    exact List.nodup_reverse.mpr hnd0
  have hm2 : (k, v) ∈ (ZwaveMeHelper.commandStream
      (ZwaveMeHelper.actionMap rooms)).reverse := List.mem_reverse.mpr hm
  rw [find?_key_eq_of_mem_of_nodup _ k v hnd2 hm2]

/-! ### C1 -/

/-- C1 (amended): for every device D of room R among the rooms returned by
list_locations, provided no two rooms share a title and no two generated
phrases coincide, the built table maps the lower-cased phrase
"wave on {D.name} in {R.title}" to the turn-on action for D, and both
"wave off {D.name} in {R.title}" and its alias with the final character of
"off" dropped to the turn-off action for D. -/
theorem C1_command_table (data : List LocationData)
    (hNames : (data.map LocationData.title).Nodup)
    (hPhr : (ZwaveMeHelper.allPhrases (data.map ZAutomationLocation.ofData)).Nodup)
    (R : ZAutomationLocation) (hR : R ∈ data.map ZAutomationLocation.ofData)
    (D : ZAutomationDevice) (hD : D ∈ (R.switches).1) :
    dictLookup (ZwaveMeHelper.init_commands (data.map ZAutomationLocation.ofData))
        (pyLower ("wave on ".toList ++ D.deviceName ++ " in ".toList ++ R.title))
      = some (D, APIDeviceActionStrategy.TURN_ON)
    ∧ dictLookup (ZwaveMeHelper.init_commands (data.map ZAutomationLocation.ofData))
        (pyLower ("wave off ".toList ++ D.deviceName ++ " in ".toList ++ R.title))
      = some (D, APIDeviceActionStrategy.TURN_OFF)
    ∧ dictLookup (ZwaveMeHelper.init_commands (data.map ZAutomationLocation.ofData))
        (pyLower ("wave of ".toList ++ D.deviceName ++ " in ".toList ++ R.title))
      = some (D, APIDeviceActionStrategy.TURN_OFF) := by
  have hname : (data.map ZAutomationLocation.ofData).map ZAutomationLocation.name
      = data.map LocationData.title := by
    rw [List.map_map]
    rfl
  have hnd : ((data.map ZAutomationLocation.ofData).map ZAutomationLocation.name).Nodup := by
    rw [hname]
    exact hNames
  have ham := actionMap_eq (data.map ZAutomationLocation.ofData) hnd
  have hkey : R.name ∈ dictKeys (ZwaveMeHelper.actionMap (data.map ZAutomationLocation.ofData)) := by
    rw [ham]
    unfold dictKeys
    rw [List.map_map]
    exact List.mem_map.mpr ⟨R, hR, rfl⟩
  have hlook : dictLookup (ZwaveMeHelper.actionMap (data.map ZAutomationLocation.ofData)) R.name
      = some (R.switches).1 := by
    rw [ham]
    unfold dictLookup
    rw [find?_key_eq_of_mem_of_nodup _ R.name (R.switches).1 (by
        rw [List.map_map]
        exact hnd)
      (List.mem_map.mpr ⟨R, hR, rfl⟩)]
    rfl
  have h0 := dictLookup_init_commands (data.map ZAutomationLocation.ofData) _ _ hPhr
    (commandStream_mem _ R.name _ hkey hlook D hD 0 (by omega))
  have h1 := dictLookup_init_commands (data.map ZAutomationLocation.ofData) _ _ hPhr
    (commandStream_mem _ R.name _ hkey hlook D hD 1 (by omega))
  have h2 := dictLookup_init_commands (data.map ZAutomationLocation.ofData) _ _ hPhr
    (commandStream_mem _ R.name _ hkey hlook D hD 2 (by omega))
  rw [mkCommand_on] at h0
  rw [mkCommand_off] at h1
  rw [mkCommand_of] at h2
  exact ⟨h0, h1, h2⟩

/-- C1 counterexample: with two distinct devices of the same name in one
room, the on-phrase of the first device is overwritten by the second
device's assignment (Python dict last-write-wins), so the table does not
map it to a turn-on action for the first device, although that device is
returned by list_locations (it is the first switch of the single room). -/
theorem C1_counterexample :
    ((ZAutomationLocation.ofData dupLoc).switches).1 = [dupDev1, dupDev2]
    ∧ dictLookup (ZwaveMeHelper.init_commands ([dupLoc].map ZAutomationLocation.ofData))
        (pyLower ("wave on ".toList ++ dupDev1.deviceName ++ " in ".toList ++ dupLoc.title))
      = some (dupDev2, APIDeviceActionStrategy.TURN_ON)
    ∧ ¬ (dictLookup (ZwaveMeHelper.init_commands ([dupLoc].map ZAutomationLocation.ofData))
          (pyLower ("wave on ".toList ++ dupDev1.deviceName ++ " in ".toList ++ dupLoc.title))
        = some (dupDev1, APIDeviceActionStrategy.TURN_ON)) := by
  have hpos : dictLookup (ZwaveMeHelper.init_commands ([dupLoc].map ZAutomationLocation.ofData))
      (pyLower ("wave on ".toList ++ dupDev1.deviceName ++ " in ".toList ++ dupLoc.title))
      = some (dupDev2, APIDeviceActionStrategy.TURN_ON) := by rfl
  refine ⟨rfl, hpos, ?_⟩
  rw [hpos]
  intro h
  have h2 : dupDev2 = dupDev1 := congrArg (fun o => (o.getD (dupDev1, [])).1) h
  have h3 : dupDev2.deviceId = dupDev1.deviceId := congrArg ZAutomationDevice.deviceId h2
  exact absurd h3 (by decide)

/-- C1 witness: the amended theorem applied to the demo scenario, where all
hypotheses hold. -/
theorem C1_witness :
    dictLookup (ZwaveMeHelper.init_commands ([demoLoc].map ZAutomationLocation.ofData))
        (pyLower ("wave on ".toList ++ demoDevice.deviceName ++ " in ".toList
          ++ demoLoc.title))
      = some (demoDevice, APIDeviceActionStrategy.TURN_ON) :=
  (C1_command_table [demoLoc]
    (by decide)
    (by decide)
    (ZAutomationLocation.ofData demoLoc)
    (by rw [show [demoLoc].map ZAutomationLocation.ofData
          = [ZAutomationLocation.ofData demoLoc] from rfl]
        exact List.mem_singleton.mpr rfl)
    demoDevice
    (by rw [show ((ZAutomationLocation.ofData demoLoc).switches).1 = [demoDevice] from rfl]
        exact List.mem_singleton.mpr rfl)).1

/-! ### C7 -/

/-- C7: `clean_command` strips exactly one layer of enclosing single quotes
when both the first and last character are single quotes, and returns the
input unchanged otherwise; in particular on the three example inputs of the
specification. -/
theorem C7_clean_command_spec (s t : PyStr) :
    ZwaveMeHelper.clean_command ('\'' :: (t ++ ['\''])) = t
    ∧ (¬ (s.head? = some '\'' ∧ s.getLast? = some '\'') →
        ZwaveMeHelper.clean_command s = s)
    ∧ ZwaveMeHelper.clean_command ('\'' :: ("wave on x in y".toList ++ ['\'']))
        = "wave on x in y".toList
    ∧ ZwaveMeHelper.clean_command ("wave on x in y".toList) = "wave on x in y".toList
    ∧ ZwaveMeHelper.clean_command ('\'' :: "unterminated".toList)
        = '\'' :: "unterminated".toList := by
  refine ⟨clean_command_strips t, clean_command_id s, ?_, ?_, ?_⟩
  · exact clean_command_strips _
  · decide
  · decide

/-- C7 witness: the unchanged branch of `C7_clean_command_spec` evaluated at
a concrete unquoted phrase. -/
theorem C7_witness :
    ZwaveMeHelper.clean_command ("wave on x in y".toList) = "wave on x in y".toList :=
  (C7_clean_command_spec ("wave on x in y".toList) []).2.1 (by decide)

/-! ### C8 -/

/-- C8: the list-locations strategy performs exactly one GET (it never
retries); on a 4xx/5xx status it raises a transport error, and on success
it returns one Location entity per element of the data field of the JSON
body, in order. -/
theorem C8_list_locations (c : Credentials) (resp : HttpResponse) :
    (APIListLocationStrategy.apply c resp).2
      = [APIListLocationStrategy.server_full_url c]
    ∧ (400 ≤ resp.status ∧ resp.status < 600 →
        (APIListLocationStrategy.apply c resp).1 = .error (.httpError resp.status))
    ∧ (¬ (400 ≤ resp.status ∧ resp.status < 600) →
        (APIListLocationStrategy.apply c resp).1
          = .ok (resp.data.map ZAutomationLocation.ofData)) := by
  unfold APIListLocationStrategy.apply raise_for_status
  by_cases h : 400 ≤ resp.status ∧ resp.status < 600
  · rw [if_pos h]
    exact ⟨rfl, fun _ => rfl, fun hc => absurd h hc⟩
  · rw [if_neg h]
    exact ⟨rfl, fun hc => absurd hc h, fun _ => rfl⟩

/-- C8 witness: a 404 response raises the transport error, a 200 response
yields the rooms of the data field. -/
theorem C8_witness :
    (APIListLocationStrategy.apply demoCreds { status := 404, data := [] }).1
      = .error (.httpError 404)
    ∧ (APIListLocationStrategy.apply demoCreds demoResp).1
      = .ok ([demoLoc].map ZAutomationLocation.ofData) :=
  ⟨(C8_list_locations demoCreds { status := 404, data := [] }).2.1 (by decide),
    (C8_list_locations demoCreds demoResp).2.2 (by decide)⟩

/-! ### C5 -/

/-- C5 counterexample: the claim says apply fails as a logged no-op (no
network call) whenever the action is not "on" or "off"; but with a
recognized device and the action "banana" the code issues the network call
anyway — the action string is never validated. -/
theorem C5_counterexample :
    ¬ ("banana".toList = APIDeviceActionStrategy.TURN_ON)
    ∧ ¬ ("banana".toList = APIDeviceActionStrategy.TURN_OFF)
    ∧ (APIDeviceActionStrategy.apply demoCreds
        (some (.device demoDevice, "banana".toList)) 200).2
      = [APIDeviceActionStrategy.commandUrl demoCreds demoDevice.api_id "banana".toList]
    ∧ (APIDeviceActionStrategy.apply demoCreds
        (some (.device demoDevice, "banana".toList)) 200).2 ≠ [] := by
  refine ⟨by decide, by decide, rfl, ?_⟩
  have htr : (APIDeviceActionStrategy.apply demoCreds
      (some (.device demoDevice, "banana".toList)) 200).2
      = [APIDeviceActionStrategy.commandUrl demoCreds demoDevice.api_id "banana".toList] := rfl
  rw [htr]
  exact List.cons_ne_nil _ _

/-- C5 (amended): apply is a logged no-op — no exception, no network call —
exactly when the param is missing or its first element is not a recognized
Device; the action value itself is not validated. -/
theorem C5_invalid_param_noop (c : Credentials) (cn a : PyStr) (st : Nat) :
    APIDeviceActionStrategy.apply c (some (.other cn, a)) st = (.ok (), [])
    ∧ APIDeviceActionStrategy.apply c none st = (.ok (), []) :=
  ⟨rfl, rfl⟩

/-! ### C6 -/

/-- C6 counterexample: the claim says a successful call returns a success
flag indicating the outcome, but apply has no return statement: the value
returned by a successful 2xx call is identical to the value returned by the
invalid-parameter failure no-op, so the caller receives no outcome flag. -/
theorem C6_counterexample :
    (APIDeviceActionStrategy.apply demoCreds
        (some (.device demoDevice, APIDeviceActionStrategy.TURN_ON)) 200).1
      = (APIDeviceActionStrategy.apply demoCreds
          (some (.other "str".toList, APIDeviceActionStrategy.TURN_ON)) 200).1 := rfl

/-- C6 (amended): with a recognized Device, an action and a 2xx response,
apply issues exactly one GET to the command URL and returns normally — but
the value returned is Python's None (unit), not a success flag; success is
signalled only by the absence of an exception. -/
theorem C6_action_success (c : Credentials) (d : ZAutomationDevice) (a : PyStr)
    (st : Nat) (h : 200 ≤ st ∧ st < 300) :
    APIDeviceActionStrategy.apply c (some (.device d, a)) st
      = (.ok (), [APIDeviceActionStrategy.commandUrl c d.api_id a]) := by
  unfold APIDeviceActionStrategy.apply raise_for_status
  rw [if_neg (by omega)]

/-- C6 witness: the amended theorem at the demo device with action on and
status 200. -/
theorem C6_witness :
    APIDeviceActionStrategy.apply demoCreds
        (some (.device demoDevice, APIDeviceActionStrategy.TURN_ON)) 200
      = (.ok (), [APIDeviceActionStrategy.commandUrl demoCreds demoDevice.api_id
          APIDeviceActionStrategy.TURN_ON]) :=
  C6_action_success demoCreds demoDevice APIDeviceActionStrategy.TURN_ON 200 (by decide)

/-! ### C2 -/

/-- C2 counterexample: with the room titled exactly "Living Room" as the
claim states, the table keys read "... in living room" — the phrase
appends the room title verbatim after "in", so the claimed phrase set
("... in the living room") is not produced. -/
theorem C2_counterexample :
    dictKeys (ZwaveMeHelper.init_commands [ZAutomationLocation.ofData c2Loc])
      = ["wave on the plug switch in living room".toList,
          "wave off the plug switch in living room".toList,
          "wave of the plug switch in living room".toList]
    ∧ ¬ (dictKeys (ZwaveMeHelper.init_commands [ZAutomationLocation.ofData c2Loc])
      = ["wave on the plug switch in the living room".toList,
          "wave off the plug switch in the living room".toList,
          "wave of the plug switch in the living room".toList]) := by
  have hk : dictKeys (ZwaveMeHelper.init_commands [ZAutomationLocation.ofData c2Loc])
      = ["wave on the plug switch in living room".toList,
          "wave off the plug switch in living room".toList,
          "wave of the plug switch in living room".toList] := by rfl
  refine ⟨hk, ?_⟩
  rw [hk]
  intro h
  exact absurd (congrArg (fun l => l.headD []) h) (by decide)

/-- C2 (amended): with one room titled "The Living Room" holding the single
device "The Plug Switch", list_commands yields exactly the three phrases of
the scenario, and executing the single-quoted lower-cased on-phrase returns
True and triggers exactly one action call, the GET for action "on" on that
device. -/
theorem C2_end_to_end :
    (ZwaveMeHelper.get_vocal_commands demoHelper demoResp).1
      = .ok ["wave on the plug switch in the living room".toList,
          "wave off the plug switch in the living room".toList,
          "wave of the plug switch in the living room".toList]
    ∧ (ZwaveMeHelper.do_vocal_commands demoHelper demoResp 200
        (some ('\'' :: ("wave on the plug switch in the living room".toList
          ++ ['\''])))).1 = .ok true
    ∧ (ZwaveMeHelper.do_vocal_commands demoHelper demoResp 200
        (some ('\'' :: ("wave on the plug switch in the living room".toList
          ++ ['\''])))).2.2.2
      = [APIDeviceActionStrategy.commandUrl demoCreds demoDevice.api_id
          APIDeviceActionStrategy.TURN_ON] := by
  refine ⟨?_, ?_, ?_⟩ <;> rfl

/-! ### C3 -/

theorem do_lookup_state (h : ZwaveMeHelper) (t : CommandTable) (n : Nat)
    (as : Nat) (o : Option PyStr) :
    (ZwaveMeHelper.do_lookup h t n as o).2.1 = h
    ∧ (ZwaveMeHelper.do_lookup h t n as o).2.2.1 = n := by
  unfold ZwaveMeHelper.do_lookup
  constructor
  · repeat' split
    all_goals rfl
  · repeat' split
    all_goals rfl

theorem runOp_built (h : ZwaveMeHelper) (t : CommandTable) (resp : HttpResponse)
    (as : Nat) (op : HelperOp) (hc : h._commands = some t) :
    ZwaveMeHelper.runOp h resp as op = (h, 0) := by
  cases op with
  | listCmds =>
    unfold ZwaveMeHelper.runOp ZwaveMeHelper.get_vocal_commands
    rw [hc]
  | exec o =>
    unfold ZwaveMeHelper.runOp ZwaveMeHelper.do_vocal_commands
    rw [hc]
    show ((ZwaveMeHelper.do_lookup h t 0 as o).2.1,
      (ZwaveMeHelper.do_lookup h t 0 as o).2.2.1) = (h, 0)
    rw [(do_lookup_state h t 0 as o).1, (do_lookup_state h t 0 as o).2]

theorem init_commands_run_spec (h : ZwaveMeHelper) (resp : HttpResponse) :
    ((ZwaveMeHelper.init_commands_run h resp).2.1)._commands.isSome = true
    ∧ (ZwaveMeHelper.init_commands_run h resp).2.2 = 1 := by
  cases hrs : raise_for_status resp.status with
  | error e =>
    constructor
    · simp [ZwaveMeHelper.init_commands_run, APIListLocationStrategy.apply, hrs]
    · simp [ZwaveMeHelper.init_commands_run, APIListLocationStrategy.apply, hrs]
  | ok u =>
    constructor
    · simp [ZwaveMeHelper.init_commands_run, APIListLocationStrategy.apply, hrs]
    · simp [ZwaveMeHelper.init_commands_run, APIListLocationStrategy.apply, hrs]

theorem runOp_fresh (h : ZwaveMeHelper) (resp : HttpResponse) (as : Nat)
    (op : HelperOp) (hc : h._commands = none) :
    (ZwaveMeHelper.runOp h resp as op).1._commands.isSome = true
    ∧ (ZwaveMeHelper.runOp h resp as op).2 = 1 := by
  have hi := init_commands_run_spec h resp
  cases op with
  | listCmds =>
    cases hX : ZwaveMeHelper.init_commands_run h resp with
    | mk res s2 =>
      obtain ⟨h2, n⟩ := s2
      rw [hX] at hi
      unfold ZwaveMeHelper.runOp ZwaveMeHelper.get_vocal_commands
      rw [hc, hX]
      cases res with
      | error e => exact ⟨hi.1, hi.2⟩
      | ok t => exact ⟨hi.1, hi.2⟩
  | exec o =>
    cases hX : ZwaveMeHelper.init_commands_run h resp with
    | mk res s2 =>
      obtain ⟨h2, n⟩ := s2
      rw [hX] at hi
      unfold ZwaveMeHelper.runOp ZwaveMeHelper.do_vocal_commands
      rw [hc, hX]
      cases res with
      | error e => exact ⟨hi.1, hi.2⟩
      | ok t =>
        show ((ZwaveMeHelper.do_lookup h2 t n as o).2.1)._commands.isSome = true
          ∧ (ZwaveMeHelper.do_lookup h2 t n as o).2.2.1 = 1
        rw [(do_lookup_state h2 t n as o).1, (do_lookup_state h2 t n as o).2]
        exact ⟨hi.1, hi.2⟩

theorem runOps_built (resp : HttpResponse) (as : Nat) :
    ∀ (ops : List HelperOp) (h : ZwaveMeHelper) (t : CommandTable),
      h._commands = some t →
      ZwaveMeHelper.runOps resp as h ops = (h, 0) := by
  intro ops
  induction ops with
  | nil =>
    intro h t hc
    rfl
  | cons op rest ih =>
    intro h t hc
    show ((ZwaveMeHelper.runOps resp as (ZwaveMeHelper.runOp h resp as op).1 rest).1,
      (ZwaveMeHelper.runOp h resp as op).2
        + (ZwaveMeHelper.runOps resp as (ZwaveMeHelper.runOp h resp as op).1 rest).2) = (h, 0)
    rw [runOp_built h t resp as op hc]
    show ((ZwaveMeHelper.runOps resp as h rest).1,
      0 + (ZwaveMeHelper.runOps resp as h rest).2) = (h, 0)
    rw [ih h t hc]
    rfl

/-- C3: the command table has exactly the two states Unset (`_commands` is
`None`) and Built; with a built table every operation is a no-op on the
state with zero list-locations calls — regardless of the table content, so
even an empty built table is never rebuilt (the guard is on assignment, not
non-emptiness); a fresh helper transitions to Built on the first call with
exactly one list-locations call; and any non-empty run of operations from a
fresh helper performs the list-locations call exactly once in total. -/
theorem C3_table_lifecycle (resp : HttpResponse) (as : Nat) :
    (∀ (h : ZwaveMeHelper) (t : CommandTable) (op : HelperOp),
      h._commands = some t → ZwaveMeHelper.runOp h resp as op = (h, 0))
    ∧ (∀ (h : ZwaveMeHelper) (op : HelperOp), h._commands = none →
      (ZwaveMeHelper.runOp h resp as op).1._commands.isSome = true
      ∧ (ZwaveMeHelper.runOp h resp as op).2 = 1)
    ∧ (∀ (h : ZwaveMeHelper) (ops : List HelperOp), h._commands = none →
      ops ≠ [] → (ZwaveMeHelper.runOps resp as h ops).2 = 1) := by
  refine ⟨fun h t op hc => runOp_built h t resp as op hc,
    fun h op hc => runOp_fresh h resp as op hc, ?_⟩
  intro h ops hc hne
  cases ops with
  | nil => exact absurd rfl hne
  | cons op rest =>
    show (ZwaveMeHelper.runOp h resp as op).2
      + (ZwaveMeHelper.runOps resp as (ZwaveMeHelper.runOp h resp as op).1 rest).2 = 1
    have h1 := runOp_fresh h resp as op hc
    obtain ⟨t, ht⟩ := Option.isSome_iff_exists.mp h1.1
    rw [h1.2, runOps_built resp as rest (ZwaveMeHelper.runOp h resp as op).1 t ht]
    rfl

/-- C3 witness: three successive execute calls from a fresh helper invoke
the list-locations network call exactly once. -/
theorem C3_witness :
    (ZwaveMeHelper.runOps demoResp 200 demoHelper
      [.exec (some ("a".toList)), .exec (some ("a".toList)),
        .exec (some ("a".toList))]).2 = 1 :=
  (C3_table_lifecycle demoResp 200).2.2 demoHelper
    [.exec (some ("a".toList)), .exec (some ("a".toList)), .exec (some ("a".toList))]
    rfl (List.cons_ne_nil _ _)

/-! ### C4 -/

/-- C4: with a built command table and a phrase whose normalized form has
no entry, execute returns False, leaves the helper unchanged, performs zero
network calls of either kind, and raises no exception — the miss is the
only error path and it is absorbed into the False result. -/
theorem C4_unknown_phrase (h : ZwaveMeHelper) (t : CommandTable)
    (resp : HttpResponse) (as : Nat) (o : PyStr) (hc : h._commands = some t)
    (hmiss : dictLookup t (ZwaveMeHelper.clean_command o) = none) :
    ZwaveMeHelper.do_vocal_commands h resp as (some o) = (.ok false, h, 0, []) := by
  simp only [ZwaveMeHelper.do_vocal_commands, hc, ZwaveMeHelper.do_lookup, hmiss]

/-- C4 witness: "turn on nothing" against a built empty table. -/
theorem C4_witness :
    ZwaveMeHelper.do_vocal_commands demoBuiltEmpty demoResp 200
        (some ("turn on nothing".toList))
      = (.ok false, demoBuiltEmpty, 0, []) :=
  C4_unknown_phrase demoBuiltEmpty [] demoResp 200 ("turn on nothing".toList) rfl rfl

/-! ### C10 -/

/-- C10: calling do_vocal_commands with its default order=None yields no
boolean: the lazy build still happens first (when pending and the
locations request succeeds), and then clean_command slices the None value,
raising a TypeError — so the no-raise guarantee of execute only holds for
string inputs. -/
theorem C10_none_order (h : ZwaveMeHelper) (t : CommandTable)
    (resp : HttpResponse) (as : Nat) :
    (h._commands = some t →
      ZwaveMeHelper.do_vocal_commands h resp as none = (.error .typeError, h, 0, []))
    ∧ (h._commands = none → ¬ (400 ≤ resp.status ∧ resp.status < 600) →
      (ZwaveMeHelper.do_vocal_commands h resp as none).1 = .error .typeError
      ∧ ((ZwaveMeHelper.do_vocal_commands h resp as none).2.1)._commands.isSome = true
      ∧ (ZwaveMeHelper.do_vocal_commands h resp as none).2.2.1 = 1) := by
  constructor
  · intro hc
    unfold ZwaveMeHelper.do_vocal_commands
    rw [hc]
    rfl
  · intro hc h2
    unfold ZwaveMeHelper.do_vocal_commands ZwaveMeHelper.init_commands_run
      APIListLocationStrategy.apply raise_for_status
    rw [hc, if_neg h2]
    exact ⟨rfl, rfl, rfl⟩

/-- C10 witness: a fresh helper, a successful locations response and a
None order produce the TypeError. -/
theorem C10_witness :
    (ZwaveMeHelper.do_vocal_commands demoHelper demoResp 200 none).1
      = .error .typeError :=
  ((C10_none_order demoHelper [] demoResp 200).2 rfl (by decide)).1

/-! ### C9 -/

/-- C9: switches computes the device list on first access by filtering the
namespaces for the fixed switch tag and flattening each matching group's
params into devices, memoizes it, and every later access returns the stored
sequence with the state unchanged — whatever is stored, so nothing is
recomputed; accessing twice equals accessing once. -/
theorem C9_switches_memo (l : ZAutomationLocation) (s : List ZAutomationDevice) :
    (l._switches = none →
      l.switches = ((l.namespaces.filter
          (fun n => n.id = ZAutomationLocation._SWITCHES)).flatMap (fun g => g.params),
        { l with _switches := some ((l.namespaces.filter
          (fun n => n.id = ZAutomationLocation._SWITCHES)).flatMap (fun g => g.params)) }))
    ∧ (l._switches = some s → l.switches = (s, l))
    ∧ ((l.switches).2).switches = l.switches := by
  refine ⟨?_, ?_, ?_⟩
  · intro hc
    unfold ZAutomationLocation.switches
    rw [hc]
    rfl
  · intro hc
    unfold ZAutomationLocation.switches
    rw [hc]
  · obtain ⟨ti, ns, sw⟩ := l
    cases sw with
    | none => rfl
    | some s2 => rfl

/-- C9 witness: the demo room's first access computes the filtered and
flattened device list; a location with a stored list returns it unchanged. -/
theorem C9_witness :
    (ZAutomationLocation.ofData demoLoc).switches
      = (((ZAutomationLocation.ofData demoLoc).namespaces.filter
            (fun n => n.id = ZAutomationLocation._SWITCHES)).flatMap (fun g => g.params),
        { ZAutomationLocation.ofData demoLoc with _switches := some (((ZAutomationLocation.ofData
            demoLoc).namespaces.filter
            (fun n => n.id = ZAutomationLocation._SWITCHES)).flatMap (fun g => g.params)) })
    ∧ ZAutomationLocation.switches
        { title := "t".toList, namespaces := [], _switches := some [demoDevice] }
      = ([demoDevice],
        { title := "t".toList, namespaces := [], _switches := some [demoDevice] }) :=
  ⟨(C9_switches_memo (ZAutomationLocation.ofData demoLoc) []).1 rfl,
    (C9_switches_memo
      { title := "t".toList, namespaces := [], _switches := some [demoDevice] }
      [demoDevice]).2.1 rfl⟩
